import Mathlib

/-
Verification of the job-pipeline core of the aeonprotocol.com repository:
job store and status updates, worker retry behavior, idempotent task
dispatch, leaky-bucket admission control, job listing, idempotent job
creation, and cost estimation.  Python code is shallowly embedded: database
tables become lists of records, Redis becomes explicit association lists,
Python floats become exact rationals, and raised exceptions become Except
values.
-/

set_option maxRecDepth 4000

namespace Aeon

/-- Association-list rendering of an opaque JSON object payload
(input_data / output_data columns and Celery task results). -/
abbrev Data := List (String × String)

/-- Job status enum from services/api/app/database/models.py (JobStatus):
PENDING, PROCESSING, COMPLETED, FAILED, CANCELLED. -/
inductive JobStatus where
  | pending
  | processing
  | completed
  | failed
  | cancelled
deriving DecidableEq, Repr

/-- The lowercase name of a status, as produced by job.status.name.lower()
on the JobStatus enum (member names are the uppercase spellings). -/
def JobStatus.lowerName : JobStatus → String
  | .pending => "pending"
  | .processing => "processing"
  | .completed => "completed"
  | .failed => "failed"
  | .cancelled => "cancelled"

/-- A row of the jobs table (services/api/app/database/models.py Job /
neon_db JobModel).  Integer tenant ids are represented by their unique
slug string; columns not touched by the verified operations are omitted. -/
structure Job where
  id : Nat
  tenant : String
  jobType : String
  status : JobStatus
  inputData : Data
  outputData : Option Data
  errorMessage : Option String
  externalJobId : Option String
  completedAt : Option Nat
  createdAt : Nat
deriving DecidableEq, Repr

/-- db.get(Job, job_id) / select(Job).where(Job.id == job_id): the row of
the jobs table with the given primary key. -/
def dbGet (db : List Job) (jobId : Nat) : Option Job :=
  db.find? (fun j => j.id == jobId)

/-- Truthiness of an optional string under Python `if error:`: None and
the empty string are falsy. -/
def pyTruthyStr : Option String → Bool
  | none => false
  | some s => !(s == "")

/-- The per-row effect of set_job_status_sync (services/worker/worker.py):
always overwrite status; set error_message only when the error argument is
truthy; set completed_at only when the new status is COMPLETED. -/
def set_job_fields (st : JobStatus) (err : Option String) (now : Nat) (j : Job) : Job :=
  let j1 := { j with status := st }
  let j2 := if pyTruthyStr err then { j1 with errorMessage := err } else j1
  if st = .completed then { j2 with completedAt := some now } else j2

/-- set_job_status_sync (services/worker/worker.py, lines 116-128): load
the job by primary key and, when it exists, apply the field updates and
commit.  Rows with other ids are untouched. -/
def set_job_status_sync (db : List Job) (jobId : Nat) (st : JobStatus)
    (err : Option String) (now : Nat) : List Job :=
  db.map fun j => if j.id == jobId then set_job_fields st err now j else j

/-- A row of the supabase jobs table as used by JobsService
(aeon-protocol/backend-api/aeon/services/jobs.py). -/
structure SbJob where
  id : String
  user_id : String
  status : String
  progress : Option Nat
  error : Option String
  created_at : Nat
deriving DecidableEq, Repr

/-- Lookup of a supabase jobs row by id (supabase.select_one with an id
equality filter). -/
def sbGet (tbl : List SbJob) (jobId : String) : Option SbJob :=
  tbl.find? (fun r => r.id == jobId)

/-- The patch built by JobsService.update_status: it always contains the
new status, and contains progress and error only when they are given. -/
def sb_patch (status : String) (progress : Option Nat) (error : Option String)
    (r : SbJob) : SbJob :=
  { r with
    status := status
    progress := match progress with | some p => some p | none => r.progress
    error := match error with | some e => some e | none => r.error }

/-- JobsService.update_status (aeon/services/jobs.py, lines 25-32): build
the patch and apply it to every row whose id matches (supabase.update with
an id equality filter). -/
def update_status (tbl : List SbJob) (jobId : String) (status : String)
    (progress : Option Nat) (error : Option String) : List SbJob :=
  tbl.map fun r => if r.id == jobId then sb_patch status progress error r else r

/-- Finding a row by a predicate commutes with a map that rewrites exactly
the rows satisfying the predicate, provided the rewrite preserves the
predicate. -/
theorem find?_map_selective {α : Type} (p : α → Bool) (g : α → α)
    (hg : ∀ a, p (g a) = p a) :
    ∀ l : List α,
      List.find? p (l.map fun a => if p a then g a else a) =
        (List.find? p l).map fun a => if p a then g a else a := by
  intro l
  induction l with
  | nil => rfl
  | cons x xs ih =>
    cases hx : p x with
    | true =>
      simp only [List.map_cons]
      rw [if_pos hx, List.find?_cons_of_pos _ (by rw [hg]; exact hx),
        List.find?_cons_of_pos _ hx]
      simp [hx]
    | false =>
      simp only [List.map_cons]
      rw [if_neg (by simp [hx]), List.find?_cons_of_neg _ (by simp [hx]),
        List.find?_cons_of_neg _ (by simp [hx])]
      exact ih

/-- set_job_fields never changes the primary key. -/
theorem set_job_fields_id (st : JobStatus) (err : Option String) (now : Nat)
    (j : Job) : (set_job_fields st err now j).id = j.id := by
  unfold set_job_fields
  by_cases h1 : pyTruthyStr err = true <;> by_cases h2 : st = .completed <;>
    simp [h1, h2]

/-- Reading back the updated job after set_job_status_sync. -/
theorem dbGet_set_job_status_sync (db : List Job) (jobId : Nat)
    (st : JobStatus) (err : Option String) (now : Nat) (j : Job)
    (hj : dbGet db jobId = some j) :
    dbGet (set_job_status_sync db jobId st err now) jobId =
      some (set_job_fields st err now j) := by
  unfold dbGet set_job_status_sync
  rw [find?_map_selective (fun a => a.id == jobId) (set_job_fields st err now)
    (fun a => by simp [set_job_fields_id])]
  unfold dbGet at hj
  rw [hj]
  have hid : (j.id == jobId) = true := by simpa using List.find?_some hj
  simp only [Option.map_some']
  rw [if_pos hid]

/-- The status written by set_job_fields is always the requested one. -/
theorem set_job_fields_status (st : JobStatus) (err : Option String)
    (now : Nat) (j : Job) : (set_job_fields st err now j).status = st := by
  unfold set_job_fields
  by_cases h1 : pyTruthyStr err = true <;> by_cases h2 : st = .completed <;>
    simp [h1, h2]

/-- The error message written by set_job_fields when the error argument is
a non-empty string. -/
theorem set_job_fields_error (st : JobStatus) (e : String) (now : Nat)
    (j : Job) (he : e ≠ "") :
    (set_job_fields st (some e) now j).errorMessage = some e := by
  unfold set_job_fields
  have ht : pyTruthyStr (some e) = true := by
    simp [pyTruthyStr, he]
  by_cases h2 : st = .completed <;> simp [ht, h2]

/-- The error message is left untouched by set_job_fields when the error
argument is the empty string (Python falsy). -/
theorem set_job_fields_error_empty (st : JobStatus) (now : Nat) (j : Job) :
    (set_job_fields st (some "") now j).errorMessage = j.errorMessage := by
  unfold set_job_fields
  by_cases h2 : st = .completed <;> simp [pyTruthyStr, h2]

/-- sb_patch never changes the row id. -/
theorem sb_patch_id (status : String) (progress : Option Nat)
    (error : Option String) (r : SbJob) :
    (sb_patch status progress error r).id = r.id := rfl

/-- Reading back the patched row after JobsService.update_status. -/
theorem sbGet_update_status (tbl : List SbJob) (jobId status : String)
    (progress : Option Nat) (error : Option String) (r : SbJob)
    (hr : sbGet tbl jobId = some r) :
    sbGet (update_status tbl jobId status progress error) jobId =
      some (sb_patch status progress error r) := by
  unfold sbGet update_status
  rw [find?_map_selective (fun a => a.id == jobId) (sb_patch status progress error)
    (fun a => by simp [sb_patch_id])]
  unfold sbGet at hr
  rw [hr]
  have hid : (r.id == jobId) = true := by simpa using List.find?_some hr
  simp only [Option.map_some']
  rw [if_pos hid]

/-- A COMPLETED job used as the starting state of the C1 counterexample. -/
def c1db : List Job :=
  [{ id := 1, tenant := "acme", jobType := "image", status := .completed,
     inputData := [], outputData := none, errorMessage := none,
     externalJobId := none, completedAt := some 5, createdAt := 0 }]

/-- Claim C1 counterexample: set_job_status_sync applied to a job whose
stored status is the terminal COMPLETED overwrites it with PROCESSING, so
an attempted transition out of a terminal state does not leave the stored
status unchanged. -/
theorem set_job_status_overwrites_terminal_cex :
    (dbGet c1db 1).map Job.status = some .completed ∧
    (dbGet (set_job_status_sync c1db 1 .processing none 9) 1).map Job.status =
      some .processing ∧
    JobStatus.processing ≠ JobStatus.completed := by
  refine ⟨rfl, rfl, by decide⟩

/-- Claim C1 (amended): both status-update operations are unconditional
writes: updating an existing job stores exactly the requested status,
regardless of whether the previous status was terminal; no stickiness
guard exists in set_job_status_sync or JobsService.update_status. -/
theorem status_update_unconditional (db : List Job) (jobId : Nat)
    (st : JobStatus) (err : Option String) (now : Nat) (j : Job)
    (tbl : List SbJob) (sbId sbStatus : String) (progress : Option Nat)
    (sbErr : Option String) (r : SbJob)
    (hj : dbGet db jobId = some j) (hr : sbGet tbl sbId = some r) :
    (dbGet (set_job_status_sync db jobId st err now) jobId).map Job.status =
      some st ∧
    (sbGet (update_status tbl sbId sbStatus progress sbErr) sbId).map
      SbJob.status = some sbStatus := by
  constructor
  · rw [dbGet_set_job_status_sync db jobId st err now j hj]
    simp [set_job_fields_status]
  · rw [sbGet_update_status tbl sbId sbStatus progress sbErr r hr]
    simp [sb_patch]

/-- Claim C1 witness: the amended statement evaluated on concrete stores. -/
theorem status_update_unconditional_witness :
    (dbGet (set_job_status_sync c1db 1 .processing none 9) 1).map Job.status =
      some JobStatus.processing ∧
    (sbGet (update_status
        [{ id := "j1", user_id := "u1", status := "COMPLETED",
           progress := some 100, error := none, created_at := 3 }]
        "j1" "PROCESSING" none none) "j1").map SbJob.status =
      some "PROCESSING" :=
  status_update_unconditional c1db 1 .processing none 9
    { id := 1, tenant := "acme", jobType := "image", status := .completed,
      inputData := [], outputData := none, errorMessage := none,
      externalJobId := none, completedAt := some 5, createdAt := 0 }
    [{ id := "j1", user_id := "u1", status := "COMPLETED",
       progress := some 100, error := none, created_at := 3 }]
    "j1" "PROCESSING" none none
    { id := "j1", user_id := "u1", status := "COMPLETED",
      progress := some 100, error := none, created_at := 3 }
    rfl rfl

/-- One execution attempt of worker.generate_image (worker.py, lines
177-183) on a job whose provider call raises with message err: when the
current retry counter is below max_retries the exception is turned into
self.retry and the database is not touched; on the final attempt the job
is marked FAILED with the error message. -/
def failing_attempt (jobId maxRetries : Nat) (err : String) (now : Nat)
    (k : Nat) (db : List Job) : List Job :=
  if k < maxRetries then db
  else set_job_status_sync db jobId .failed (some err) now

/-- Whether the attempt with retry counter k schedules another delivery
(the `self.request.retries < self.max_retries` guard of worker.py). -/
def retry_scheduled (maxRetries k : Nat) : Bool :=
  decide (k < maxRetries)

/-- The job table after the attempts with retry counters 0..k have run,
for a job whose provider call raises on every attempt; errs gives the
error message of each attempt. -/
def db_after_failing (db : List Job) (jobId maxRetries : Nat)
    (errs : Nat → String) (now : Nat) : Nat → List Job
  | 0 => failing_attempt jobId maxRetries (errs 0) now 0 db
  | k + 1 =>
      failing_attempt jobId maxRetries (errs (k + 1)) now (k + 1)
        (db_after_failing db jobId maxRetries errs now k)

/-- Attempts whose retry counter is below max_retries leave the job table
untouched. -/
theorem db_after_failing_lt (db : List Job) (jobId maxRetries : Nat)
    (errs : Nat → String) (now : Nat) :
    ∀ k, k < maxRetries → db_after_failing db jobId maxRetries errs now k = db := by
  intro k
  induction k with
  | zero =>
    intro h
    simp [db_after_failing, failing_attempt, h]
  | succ n ih =>
    intro h
    have hn : n < maxRetries := Nat.lt_of_succ_lt h
    simp [db_after_failing, failing_attempt, h, ih hn]

/-- The final attempt (retry counter = max_retries) marks the job FAILED
with that attempt's error message. -/
theorem db_after_failing_final (db : List Job) (jobId maxRetries : Nat)
    (errs : Nat → String) (now : Nat) :
    db_after_failing db jobId maxRetries errs now maxRetries =
      set_job_status_sync db jobId .failed (some (errs maxRetries)) now := by
  cases maxRetries with
  | zero => simp [db_after_failing, failing_attempt]
  | succ m =>
    have hm : m < m + 1 := Nat.lt_succ_self m
    simp [db_after_failing, failing_attempt,
      db_after_failing_lt db jobId (m + 1) errs now m hm]

/-- Claim C2 (amended): for a job whose provider call raises on every
attempt, intermediate attempts leave the stored record untouched (so its
status is never FAILED while a retry remains), the final attempt (retry
counter = max_retries, default 3) marks the job FAILED, stores the last
error message whenever that message is non-empty, and schedules no further
attempt. -/
theorem generate_image_retry_exhaustion (db : List Job) (jobId maxRetries : Nat)
    (errs : Nat → String) (now : Nat) (j : Job)
    (hj : dbGet db jobId = some j) (hst : j.status ≠ .failed)
    (hlast : errs maxRetries ≠ "") :
    (∀ k, k < maxRetries → db_after_failing db jobId maxRetries errs now k = db) ∧
    (∀ k, k < maxRetries →
      (dbGet (db_after_failing db jobId maxRetries errs now k) jobId).map
        Job.status ≠ some .failed) ∧
    (dbGet (db_after_failing db jobId maxRetries errs now maxRetries) jobId).map
      Job.status = some .failed ∧
    (dbGet (db_after_failing db jobId maxRetries errs now maxRetries) jobId).map
      Job.errorMessage = some (some (errs maxRetries)) ∧
    retry_scheduled maxRetries maxRetries = false := by
  have hfin := db_after_failing_final db jobId maxRetries errs now
  have hget := dbGet_set_job_status_sync db jobId .failed
    (some (errs maxRetries)) now j hj
  refine ⟨db_after_failing_lt db jobId maxRetries errs now, ?_, ?_, ?_, ?_⟩
  · intro k hk
    rw [db_after_failing_lt db jobId maxRetries errs now k hk, hj]
    simp only [Option.map_some']
    intro hcontra
    exact hst (Option.some.inj hcontra)
  · rw [hfin, hget]
    simp [set_job_fields_status]
  · rw [hfin, hget]
    simp [set_job_fields_error _ _ _ _ hlast]
  · simp [retry_scheduled]

/-- A PENDING job used as the concrete input for the C2 witness and
counterexample. -/
def c2db : List Job :=
  [{ id := 1, tenant := "acme", jobType := "image", status := .pending,
     inputData := [("prompt", "cat")], outputData := none, errorMessage := none,
     externalJobId := some "t1", completedAt := none, createdAt := 0 }]

/-- Claim C2 witness: the amended statement evaluated on a concrete job
with max_retries = 3 and error message "boom" on every attempt. -/
theorem generate_image_retry_exhaustion_witness :
    (dbGet (db_after_failing c2db 1 3 (fun _ => "boom") 7 3) 1).map
      Job.status = some JobStatus.failed ∧
    (dbGet (db_after_failing c2db 1 3 (fun _ => "boom") 7 3) 1).map
      Job.errorMessage = some (some "boom") ∧
    retry_scheduled 3 3 = false := by
  have h := generate_image_retry_exhaustion c2db 1 3 (fun _ => "boom") 7
    { id := 1, tenant := "acme", jobType := "image", status := .pending,
      inputData := [("prompt", "cat")], outputData := none, errorMessage := none,
      externalJobId := some "t1", completedAt := none, createdAt := 0 }
    rfl (by decide) (by decide)
  exact ⟨h.2.2.1, h.2.2.2.1, h.2.2.2.2⟩

/-- Claim C2 counterexample: when the provider raises with an empty error
message on every attempt, the exhausted job ends FAILED but its error
field is still null, because set_job_status_sync guards the error write
with Python truthiness (`if error:`) and the empty string is falsy. -/
theorem generate_image_empty_error_cex :
    (dbGet (db_after_failing c2db 1 3 (fun _ => "") 7 3) 1).map
      Job.status = some JobStatus.failed ∧
    (dbGet (db_after_failing c2db 1 3 (fun _ => "") 7 3) 1).map
      Job.errorMessage = some none := by
  constructor <;> rfl

/-- The status_map dictionary of services/api/app/routers/jobs.py mapping
Celery task-queue states to API status strings; states not in the
dictionary fall back to the stored status (dict.get with default). -/
def status_map : String → Option String
  | "PENDING" => some "queued"
  | "RECEIVED" => some "queued"
  | "STARTED" => some "processing"
  | "RETRY" => some "processing"
  | "SUCCESS" => some "completed"
  | "FAILURE" => some "failed"
  | _ => none

/-- Python str.upper() on the ASCII state strings involved, embedded over
the character data. -/
def pyUpper (s : String) : String :=
  String.mk (s.data.map Char.toUpper)

/-- Python falsiness of the output_data column: NULL and the empty object
are both falsy (`not job.output_data`). -/
def isEmptyData : Option Data → Bool
  | none => true
  | some d => d.isEmpty

/-- The per-row effect of the UPDATE issued by get_job when it back-fills
a completed job: status := COMPLETED and output_data := the task result. -/
def complete_fields (data : Data) (j : Job) : Job :=
  { j with status := .completed, outputData := some data }

/-- The UPDATE issued by get_job when it back-fills a completed job,
applied to the row with the given id. -/
def set_job_completed_output (db : List Job) (jobId : Nat) (data : Data) :
    List Job :=
  db.map fun j => if j.id == jobId then complete_fields data j else j

/-- get_job (services/api/app/routers/jobs.py, lines 89-115).  celeryState
gives the task queue's state for a task token and celeryResult its result
payload (AsyncResult.state / AsyncResult.result, with `result or {}`
defaulting to the empty object).  Returns the normalized status string
(none = 404) and the job table after the call. -/
def get_job (db : List Job) (celeryState : String → String)
    (celeryResult : String → Option Data) (jobId : Nat) :
    Option String × List Job :=
  match dbGet db jobId with
  | none => (none, db)
  | some job =>
    match job.externalJobId with
    | none => (some job.status.lowerName, db)
    | some tid =>
      let normalized := (status_map (pyUpper (celeryState tid))).getD
        job.status.lowerName
      if normalized = "completed" && isEmptyData job.outputData then
        let data := (celeryResult tid).getD []
        (some normalized, set_job_completed_output db jobId data)
      else (some normalized, db)

/-- Reading back the row after the back-fill update of get_job. -/
theorem dbGet_set_job_completed_output (db : List Job) (jobId : Nat)
    (data : Data) (j : Job) (hj : dbGet db jobId = some j) :
    dbGet (set_job_completed_output db jobId data) jobId =
      some (complete_fields data j) := by
  unfold dbGet set_job_completed_output
  rw [find?_map_selective (fun a => a.id == jobId) (complete_fields data)
    (fun a => rfl)]
  unfold dbGet at hj
  rw [hj]
  have hid : (j.id == jobId) = true := by simpa using List.find?_some hj
  simp only [Option.map_some']
  rw [if_pos hid]

/-- Claim C10 (amended): get_job either leaves the job table unchanged, or
the looked-up job has a task token, the effective status (the queue state
mapped through status_map, falling back to the stored status when the
queue state is unmapped) is completed and the stored output_data is empty,
and in that case the call rewrites the record to status COMPLETED with the
queue's task result as output_data. -/
theorem get_job_frame (db : List Job) (celeryState : String → String)
    (celeryResult : String → Option Data) (jobId : Nat) :
    (get_job db celeryState celeryResult jobId).2 = db ∨
    ∃ j tid, dbGet db jobId = some j ∧ j.externalJobId = some tid ∧
      (status_map (pyUpper (celeryState tid))).getD j.status.lowerName =
        "completed" ∧
      isEmptyData j.outputData = true ∧
      (get_job db celeryState celeryResult jobId).2 =
        set_job_completed_output db jobId ((celeryResult tid).getD []) ∧
      (dbGet ((get_job db celeryState celeryResult jobId).2) jobId).map
        Job.status = some .completed ∧
      (dbGet ((get_job db celeryState celeryResult jobId).2) jobId).map
        Job.outputData = some (some ((celeryResult tid).getD [])) := by
  cases hj : dbGet db jobId with
  | none =>
    left
    simp [get_job, hj]
  | some job =>
    cases ht : job.externalJobId with
    | none =>
      left
      simp [get_job, hj, ht]
    | some tid =>
      by_cases h1 :
          (status_map (pyUpper (celeryState tid))).getD job.status.lowerName =
            "completed"
      · by_cases h2 : isEmptyData job.outputData = true
        · have hrun : (get_job db celeryState celeryResult jobId).2 =
              set_job_completed_output db jobId ((celeryResult tid).getD []) := by
            simp [get_job, hj, ht, h1, h2]
          refine Or.inr ⟨job, tid, rfl, ht, h1, h2, hrun, ?_, ?_⟩
          · rw [hrun, dbGet_set_job_completed_output db jobId _ job hj]
            rfl
          · rw [hrun, dbGet_set_job_completed_output db jobId _ job hj]
            rfl
        · left
          simp [get_job, hj, ht, h2]
      · left
        simp [get_job, hj, ht, h1]

/-- The concrete job record of the C10 counterexample: already COMPLETED,
with a task token and no output_data. -/
def c10db : List Job :=
  [{ id := 1, tenant := "acme", jobType := "image", status := .completed,
     inputData := [], outputData := none, errorMessage := none,
     externalJobId := some "t1", completedAt := some 4, createdAt := 0 }]

/-- Claim C10 counterexample: with the queue reporting the unmapped state
REVOKED (not SUCCESS) for a job already stored as COMPLETED with empty
output_data, status_map falls back to the stored status, the back-fill
branch fires anyway, and the call rewrites the record: the table changes
although the queue did not report the token as successful. -/
theorem get_job_writes_without_success_cex :
    status_map (pyUpper "REVOKED") = none ∧
    pyUpper "REVOKED" ≠ "SUCCESS" ∧
    (get_job c10db (fun _ => "REVOKED") (fun _ => some [("url", "s3key")]) 1).2 ≠
      c10db ∧
    (get_job c10db (fun _ => "REVOKED") (fun _ => some [("url", "s3key")]) 1).2 =
      [{ id := 1, tenant := "acme", jobType := "image", status := .completed,
         inputData := [], outputData := some [("url", "s3key")],
         errorMessage := none, externalJobId := some "t1", completedAt := some 4,
         createdAt := 0 }] := by
  refine ⟨rfl, by decide, by decide, rfl⟩

/-- The value a redis-py `set` call can evaluate to in the Python
condition of IdempotentTask: the Python constants True, False and None. -/
inductive PyStatus where
  | pyTrue
  | pyFalse
  | pyNone
deriving DecidableEq, Repr

/-- Python identity comparison `x is y` on these singleton constants. -/
def pyIs (a b : PyStatus) : Bool := a == b

/-- redis-py Redis.set with nx=True and ex=ttl on a store of keys with
absolute expiry times: when no unexpired entry for the key exists the key
is written with the new expiry and the call evaluates to True; when an
unexpired entry exists nothing is written and the call evaluates to None
(redis-py returns None, not False, for a failed NX set). -/
def redis_set_nx (store : List (String × Nat)) (key : String) (now ttl : Nat) :
    PyStatus × List (String × Nat) :=
  match store.find? (fun e => e.1 == key && decide (now < e.2)) with
  | some _ => (.pyNone, store)
  | none => (.pyTrue, (key, now + ttl) :: store.filter (fun e => !(e.1 == key)))

/-- The key basis string of IdempotentTask.__call__
(aeon-protocol/backend-workers/aeon_workers/app.py, line 44): the task
name and the textual rendering of the ordered positional and keyword
arguments. -/
def key_basis (name args kwargs : String) : String :=
  name ++ ":" ++ args ++ ":" ++ kwargs

/-- The idempotency key of IdempotentTask.__call__ (app.py, line 45);
hashHex stands for the external hashlib.sha256 hexdigest, an arbitrary
fixed deterministic function. -/
def idem_key (hashHex : String → String) (name args kwargs : String) : String :=
  "idem:" ++ hashHex (key_basis name args kwargs)

/-- IdempotentTask.__call__ (app.py, lines 42-49): derive the key, attempt
a set-if-absent with a 3600-second TTL, return None without running the
body when the set call evaluated to the Python constant False, and run the
body otherwise.  Returns the task's return value (none = suppressed) and
the key store after the call. -/
def IdempotentTask.call {β : Type} (hashHex : String → String)
    (run : String → String → β) (name args kwargs : String) (now : Nat)
    (store : List (String × Nat)) : Option β × List (String × Nat) :=
  let k := idem_key hashHex name args kwargs
  let res := redis_set_nx store k now 3600
  if pyIs res.1 .pyFalse then (none, res.2)
  else (some (run args kwargs), res.2)

/-- The body of the aeon_workers generate_video task (app.py, lines
57-60): log and return the job id. -/
def generate_video_body (job_id : String) : String := job_id

/-- The placeholder for hashlib.sha256 hexdigest used at concrete inputs;
any fixed deterministic function exercises the same control flow. -/
def idHash : String → String := fun s => s

/-- redis-py never returns the Python constant False from a set with
nx=True, so the duplicate-suppression branch of IdempotentTask.__call__
is unreachable. -/
theorem redis_set_nx_never_false (store : List (String × Nat)) (key : String)
    (now ttl : Nat) : pyIs (redis_set_nx store key now ttl).1 .pyFalse = false := by
  unfold redis_set_nx
  cases h : store.find? (fun e => e.1 == key && decide (now < e.2)) <;>
    simp [h, pyIs]

/-- Claim C3: evaluated at the failing input, IdempotentTask.__call__
executes the task body on both of two submissions with identical task
name and arguments made within the 3600-second TTL, although the second
set-if-absent found the key present: the `is False` duplicate check never
fires because redis-py returns None for a failed NX set. -/
theorem idempotent_task_duplicate_runs :
    (IdempotentTask.call idHash (fun a _ => a)
      "aeon_workers.tasks.generate_video" "job-1" "" 0 []).1 = some "job-1" ∧
    (IdempotentTask.call idHash (fun a _ => a)
      "aeon_workers.tasks.generate_video" "job-1" ""
      0 []).2 =
      [("idem:aeon_workers.tasks.generate_video:job-1:", 3600)] ∧
    (IdempotentTask.call idHash (fun a _ => a)
      "aeon_workers.tasks.generate_video" "job-1" "" 10
      [("idem:aeon_workers.tasks.generate_video:job-1:", 3600)]).1 =
      some "job-1" := by
  refine ⟨rfl, by decide, by decide⟩

/-- Claim C9: a second invocation of the generate_video task with the same
job id, 10 seconds after the first (well within 3600 seconds), returns the
body's return value (the job id) rather than None: the duplicate is not
suppressed and the body runs again. -/
theorem generate_video_second_invocation_runs :
    (IdempotentTask.call idHash (fun a _ => generate_video_body a)
      "aeon_workers.tasks.generate_video" "job-1" "" 0 []).1 = some "job-1" ∧
    (IdempotentTask.call idHash (fun a _ => generate_video_body a)
      "aeon_workers.tasks.generate_video" "job-1" "" 10
      (IdempotentTask.call idHash (fun a _ => generate_video_body a)
        "aeon_workers.tasks.generate_video" "job-1" "" 0 []).2).1 =
      some "job-1" ∧
    (IdempotentTask.call idHash (fun a _ => generate_video_body a)
      "aeon_workers.tasks.generate_video" "job-1" "" 10
      (IdempotentTask.call idHash (fun a _ => generate_video_body a)
        "aeon_workers.tasks.generate_video" "job-1" "" 0 []).2).1 ≠ none := by
  refine ⟨rfl, by decide, by decide⟩

/-- LeakyBucketConfig (aeon/services/ratelimit.py): capacity and leak
rate per second.  Python floats are embedded as exact rationals. -/
structure LeakyBucketConfig where
  capacity : Int
  leak_rate_per_sec : ℚ
deriving DecidableEq, Repr

/-- The per-user bucket state stored in the redis hash: current token
level and last-update timestamp. -/
structure BucketData where
  tokens : ℚ
  ts : ℚ
deriving DecidableEq, Repr

/-- LeakyBucketLimiter.allow (aeon/services/ratelimit.py, lines 23-44):
load the state, drain elapsed * leak_rate tokens floored at zero (an
absent hash reads as zero tokens), reject and persist the drained level
when one more token would exceed capacity, otherwise persist the drained
level plus one and accept.  Returns the decision and the persisted
state. -/
def allow (cfg : LeakyBucketConfig) (now : ℚ) (state : Option BucketData) :
    Bool × BucketData :=
  let tokens : ℚ :=
    match state with
    | some d => max 0 (d.tokens - (max 0 (now - d.ts)) * cfg.leak_rate_per_sec)
    | none => 0
  if tokens + 1 > (cfg.capacity : ℚ) then
    (false, ⟨tokens, now⟩)
  else
    (true, ⟨tokens + 1, now⟩)

/-- The drained token level described by the specification: the stored
level minus elapsed * leak_rate, floored at zero. -/
def drained_level (cfg : LeakyBucketConfig) (now : ℚ)
    (state : Option BucketData) : ℚ :=
  match state with
  | some d => max 0 (d.tokens - (max 0 (now - d.ts)) * cfg.leak_rate_per_sec)
  | none => 0

/-- A sequence of allow calls at the given times against one user's
bucket, starting from an absent hash; returns the list of decisions and
the final stored state. -/
def allowSeq (cfg : LeakyBucketConfig) (times : List ℚ) :
    List Bool × Option BucketData :=
  times.foldl
    (fun acc t =>
      let r := allow cfg t acc.2
      (acc.1 ++ [r.1], some r.2))
    ([], none)

/-- Claim C4: every allow call first drains the stored level (floored at
zero), returns false and persists the drained non-incremented level with
the new timestamp when one more token would exceed capacity, and
otherwise persists the drained level plus one and returns true; and with
capacity 5 and leak rate 1/sec, five immediate calls succeed, a sixth
immediate call fails, and after waiting one second exactly one further
call succeeds. -/
theorem leaky_bucket_allow_spec :
    (∀ (cfg : LeakyBucketConfig) (now : ℚ) (state : Option BucketData),
      allow cfg now state =
        (decide (drained_level cfg now state + 1 ≤ (cfg.capacity : ℚ)),
         ⟨if drained_level cfg now state + 1 > (cfg.capacity : ℚ) then
            drained_level cfg now state
          else drained_level cfg now state + 1, now⟩)) ∧
    (allowSeq ⟨5, 1⟩ [0, 0, 0, 0, 0, 0, 1, 1]).1 =
      [true, true, true, true, true, false, true, false] := by
  constructor
  · intro cfg now state
    cases state with
    | none =>
      unfold allow drained_level
      by_cases h : (cfg.capacity : ℚ) < 1
      · simp [h, not_le.mpr h]
      · simp [h, not_lt.mp h]
    | some d =>
      unfold allow drained_level
      by_cases h :
          max 0 (d.tokens - (max 0 (now - d.ts)) * cfg.leak_rate_per_sec) + 1 >
            (cfg.capacity : ℚ)
      · simp [h, not_le.mpr h]
      · simp [h, not_lt.mp h]
  · norm_num [allowSeq, allow, List.foldl, max_def]

/-- Failure raised by an unavailable backing store (a redis connection or
command error). -/
inductive StoreErr where
  | unavailable
deriving DecidableEq, Repr

/-- The redis operations invoked by LeakyBucketLimiter.allow, each of
which can fail when the backing store is unavailable: the pipelined
hgetall (returning the stored hash or nothing), hset and expire. -/
structure RedisBucketStore where
  hgetall : Except StoreErr (Option BucketData)
  hset : BucketData → Except StoreErr Unit
  expire : Except StoreErr Unit

/-- LeakyBucketLimiter.allow with store failures made explicit: every
redis call is performed exactly where the source performs it and a raised
error propagates to the caller (there is no exception handler in allow),
so the admission decision is only ever produced when every store call
succeeded. -/
def allowE (cfg : LeakyBucketConfig) (now : ℚ) (s : RedisBucketStore) :
    Except StoreErr Bool :=
  match s.hgetall with
  | .error e => .error e
  | .ok data =>
    let tokens : ℚ :=
      match data with
      | some d => max 0 (d.tokens - (max 0 (now - d.ts)) * cfg.leak_rate_per_sec)
      | none => 0
    if tokens + 1 > (cfg.capacity : ℚ) then
      match s.hset ⟨tokens, now⟩ with
      | .error e => .error e
      | .ok _ =>
        match s.expire with
        | .error e => .error e
        | .ok _ => .ok false
    else
      match s.hset ⟨tokens + 1, now⟩ with
      | .error e => .error e
      | .ok _ =>
        match s.expire with
        | .error e => .error e
        | .ok _ => .ok true

/-- rate_limit (services/api/app/rate_limit.py, lines 24-35) with store
failures made explicit: the pipelined INCR either fails (the exception
propagates, no handler exists) or yields the window counter; a counter
above the limit raises HTTP 429 (rejected, .ok false); otherwise the
request proceeds (.ok true). -/
def rate_limit (incrResult : Except StoreErr Nat) (lim : Nat) :
    Except StoreErr Bool :=
  match incrResult with
  | .error e => .error e
  | .ok count => .ok (decide (count ≤ lim))

/-- A store whose every operation fails: the backing store is
unavailable. -/
def downStore : RedisBucketStore :=
  { hgetall := .error .unavailable
    hset := fun _ => .error .unavailable
    expire := .error .unavailable }

/-- Claim C6: the admission controller fails closed.  Whichever store
operation fails - the initial read, the state write, or the expiry - the
error propagates and allow never reports the caller admitted; the
counter-based rate_limit likewise propagates an INCR failure.  In
particular a request checked while the store is unavailable is never
silently allowed. -/
theorem admission_fails_closed (cfg : LeakyBucketConfig) (now : ℚ)
    (s : RedisBucketStore) (e : StoreErr) (lim : Nat) :
    (s.hgetall = .error e → allowE cfg now s = .error e) ∧
    ((∀ v, s.hset v = .error e) → allowE cfg now s ≠ .ok true) ∧
    (∀ d, s.hgetall = .ok d → (∀ v, s.hset v = .ok ()) → s.expire = .error e →
      allowE cfg now s = .error e) ∧
    (rate_limit (.error e) lim = .error e) ∧
    (∀ r : Except StoreErr Bool, allowE cfg now s = r → r = .ok true →
      ∃ d, s.hgetall = .ok d) := by
  refine ⟨?_, ?_, ?_, rfl, ?_⟩
  · intro h
    unfold allowE
    rw [h]
  · intro h
    unfold allowE
    cases hg : s.hgetall with
    | error e2 => simp
    | ok d =>
      simp only
      split
      · rw [h]
        simp
      · rw [h]
        simp
  · intro d hg hset hexp
    unfold allowE
    rw [hg]
    simp only
    split
    · rw [hset, hexp]
    · rw [hset, hexp]
  · intro r hr hok
    subst hr
    unfold allowE at hok
    cases hg : s.hgetall with
    | error e2 =>
      rw [hg] at hok
      exact absurd hok (by simp)
    | ok d => exact ⟨d, rfl⟩

/-- Claim C6 witness: with every store operation failing, the leaky-bucket
check errors out (the caller is not admitted) and the counter-based check
errors out as well. -/
theorem admission_fails_closed_witness :
    allowE ⟨5, 1⟩ 0 downStore = .error .unavailable ∧
    rate_limit (.error .unavailable) 60 = .error .unavailable := by
  have h := admission_fails_closed ⟨5, 1⟩ 0 downStore .unavailable 60
  exact ⟨h.1 rfl, h.2.2.2.1⟩

/-- The full state touched by the create_job route
(services/api/app/routers/jobs.py, lines 50-86): the idempotency keys in
redis (key, stored job id, absolute expiry; the stored decimal string of
the id and its int() parse are modelled by the numeric id itself), the
tenants table, the jobs table, the Celery tasks sent so far (task name and
job id), the redis job hash cache, and the id counters of the job table
and the task queue. -/
structure ApiState where
  idem : List (String × Nat × Nat)
  tenants : List String
  jobs : List Job
  sentTasks : List (String × Nat)
  jobCache : List (String × String)
  nextJobId : Nat
  nextTaskId : Nat
deriving DecidableEq, Repr

/-- redis GET on the idempotency store: the stored id when an unexpired
entry for the key exists. -/
def redisGet (r : List (String × Nat × Nat)) (key : String) (now : Nat) :
    Option Nat :=
  match r.find? (fun e => e.1 == key) with
  | some e => if now < e.2.2 then some e.2.1 else none
  | none => none

/-- redis SETEX on the idempotency store: overwrite the key with the value
and an absolute expiry now + ttl. -/
def redisSetex (r : List (String × Nat × Nat)) (key : String) (v : Nat)
    (ttl now : Nat) : List (String × Nat × Nat) :=
  (key, v, now + ttl) :: r.filter (fun e => !(e.1 == key))

/-- The Celery task name chosen by create_job from the requested type
(body.type.lower().startswith dispatch, image as the fallback). -/
def task_for_type (ty : String) : String :=
  if ty.startsWith "image" then "worker.generate_image"
  else if ty.startsWith "video" then "worker.generate_video"
  else "worker.generate_image"

/-- create_job (services/api/app/routers/jobs.py, lines 50-86): when an
idempotency key is supplied and redis holds an unexpired entry for
idem:tenant:key, return the stored job id without touching any state;
otherwise ensure the tenant exists, insert a PENDING job, send the Celery
task, record the returned task token on the job, store the new job id
under the idempotency key with a 24-hour TTL, and cache the job hash.
Requested types are lowercase strings as produced by body.type.lower(). -/
def create_job (st : ApiState) (tenantSlug : String) (idemKey : Option String)
    (ty : String) (payload : Data) (now : Nat) : Nat × ApiState :=
  let lookup : Option Nat :=
    match idemKey with
    | some k => redisGet st.idem ("idem:" ++ tenantSlug ++ ":" ++ k) now
    | none => none
  match lookup with
  | some existing => (existing, st)
  | none =>
    let tenants :=
      if st.tenants.contains tenantSlug then st.tenants
      else st.tenants ++ [tenantSlug]
    let jid := st.nextJobId
    let token := "task-" ++ toString st.nextTaskId
    let job : Job :=
      { id := jid, tenant := tenantSlug, jobType := ty, status := .pending,
        inputData := payload, outputData := none, errorMessage := none,
        externalJobId := some token, completedAt := none, createdAt := now }
    let idem2 :=
      match idemKey with
      | some k => redisSetex st.idem ("idem:" ++ tenantSlug ++ ":" ++ k) jid
          (24 * 3600) now
      | none => st.idem
    (jid,
      { idem := idem2
        tenants := tenants
        jobs := st.jobs ++ [job]
        sentTasks := st.sentTasks ++ [(task_for_type ty, jid)]
        jobCache := ("job:" ++ toString jid, "queued") :: st.jobCache
        nextJobId := jid + 1
        nextTaskId := st.nextTaskId + 1 })

/-- Claim C5: submitting the same (tenant, idempotency key) twice within
the 24-hour retention window creates exactly one Job record and sends
exactly one provider task across both calls; the second call returns the
first call's job id and changes nothing. -/
theorem create_job_idempotent (st : ApiState) (tenantSlug k ty : String)
    (payload payload2 : Data) (t1 t2 : Nat)
    (h1 : redisGet st.idem ("idem:" ++ tenantSlug ++ ":" ++ k) t1 = none)
    (h2 : t2 < t1 + 24 * 3600) :
    (create_job ((create_job st tenantSlug (some k) ty payload t1).2)
      tenantSlug (some k) ty payload2 t2).1 =
      (create_job st tenantSlug (some k) ty payload t1).1 ∧
    (create_job ((create_job st tenantSlug (some k) ty payload t1).2)
      tenantSlug (some k) ty payload2 t2).2 =
      (create_job st tenantSlug (some k) ty payload t1).2 ∧
    (create_job st tenantSlug (some k) ty payload t1).2.jobs.length =
      st.jobs.length + 1 ∧
    (create_job st tenantSlug (some k) ty payload t1).2.sentTasks.length =
      st.sentTasks.length + 1 := by
  have hfirst : create_job st tenantSlug (some k) ty payload t1 =
      (st.nextJobId,
        { idem := redisSetex st.idem ("idem:" ++ tenantSlug ++ ":" ++ k)
            st.nextJobId (24 * 3600) t1
          tenants := if st.tenants.contains tenantSlug then st.tenants
            else st.tenants ++ [tenantSlug]
          jobs := st.jobs ++
            [{ id := st.nextJobId, tenant := tenantSlug, jobType := ty,
               status := .pending, inputData := payload, outputData := none,
               errorMessage := none,
               externalJobId := some ("task-" ++ toString st.nextTaskId),
               completedAt := none, createdAt := t1 }]
          sentTasks := st.sentTasks ++ [(task_for_type ty, st.nextJobId)]
          jobCache := ("job:" ++ toString st.nextJobId, "queued") :: st.jobCache
          nextJobId := st.nextJobId + 1
          nextTaskId := st.nextTaskId + 1 }) := by
    unfold create_job
    dsimp only
    rw [h1]
  have hlookup : redisGet (redisSetex st.idem
      ("idem:" ++ tenantSlug ++ ":" ++ k) st.nextJobId (24 * 3600) t1)
      ("idem:" ++ tenantSlug ++ ":" ++ k) t2 = some st.nextJobId := by
    unfold redisGet redisSetex
    rw [List.find?_cons_of_pos _ (by simp)]
    simp [h2]
  constructor
  · rw [hfirst]
    unfold create_job
    dsimp only
    rw [hlookup]
  constructor
  · rw [hfirst]
    unfold create_job
    dsimp only
    rw [hlookup]
  constructor
  · rw [hfirst]
    simp
  · rw [hfirst]
    simp

/-- Claim C5 witness: the idempotent-creation theorem evaluated on the
empty initial state with a concrete tenant, key and payload, the second
call 100 seconds after the first. -/
theorem create_job_idempotent_witness :
    (create_job ((create_job ⟨[], [], [], [], [], 0, 0⟩ "acme" (some "k1")
        "image" [("prompt", "cat")] 0).2)
      "acme" (some "k1") "image" [("prompt", "cat")] 100).1 =
      (create_job ⟨[], [], [], [], [], 0, 0⟩ "acme" (some "k1") "image"
        [("prompt", "cat")] 0).1 ∧
    (create_job ⟨[], [], [], [], [], 0, 0⟩ "acme" (some "k1") "image"
        [("prompt", "cat")] 0).2.jobs.length = 1 := by
  have h := create_job_idempotent ⟨[], [], [], [], [], 0, 0⟩ "acme" "k1"
    "image" [("prompt", "cat")] [("prompt", "cat")] 0 100 rfl (by decide)
  exact ⟨h.1, h.2.2.1⟩

/-- VideoGenerationRequest (aeon/routers/media_video.py): the request
parameters; field defaults are those of the pydantic model. -/
structure VideoGenerationRequest where
  title : String
  script : String
  style : String
  duration : Nat
  aspect_ratio : String
  resolution : String
  provider : String
  model : String
  voice_over : Bool
  background_music : Bool
  priority : String
deriving DecidableEq, Repr

/-- CostEstimate (media_video.py): the response model of the estimate
endpoint. -/
structure CostEstimate where
  base_cost : Int
  duration_multiplier : ℚ
  resolution_multiplier : ℚ
  style_multiplier : ℚ
  voice_over_cost : Int
  background_music_cost : Int
  priority_multiplier : ℚ
  total_cost : Int
  estimated_time_minutes : Int
deriving DecidableEq, Repr

/-- Python int() on a float value: truncation toward zero, on the exact
rational embedding. -/
def pyInt (q : ℚ) : Int :=
  if 0 ≤ q then ⌊q⌋ else ⌈q⌉

/-- The resolution_multipliers dict lookup of estimate_video_cost, with
its default of 1.5 for unknown resolutions. -/
def resolution_multipliers (s : String) : ℚ :=
  if s = "720p" then 1.0
  else if s = "1080p" then 1.5
  else if s = "4k" then 3.0
  else 1.5

/-- The style_multipliers dict lookup, default 1.0. -/
def style_multipliers (s : String) : ℚ :=
  if s = "casual" then 1.0
  else if s = "corporate" then 1.2
  else if s = "cinematic" then 1.8
  else if s = "animated" then 2.0
  else 1.0

/-- The priority_multipliers dict lookup, default 1.0. -/
def priority_multipliers (s : String) : ℚ :=
  if s = "low" then 0.8
  else if s = "normal" then 1.0
  else if s = "high" then 1.5
  else 1.0

/-- estimate_video_cost (media_video.py, lines 64-129): base cost 100,
duration multiplier max(1, duration/30), table lookups for resolution,
style and priority, flat add-ons for voice-over and background music, and
int() truncation of the combined product for the total and the time
estimate. -/
def estimate_video_cost (r : VideoGenerationRequest) : CostEstimate :=
  let base_cost : Int := 100
  let duration_multiplier : ℚ := max 1.0 ((r.duration : ℚ) / 30)
  let resolution_multiplier := resolution_multipliers r.resolution
  let style_multiplier := style_multipliers r.style
  let voice_over_cost : Int := if r.voice_over then 50 else 0
  let background_music_cost : Int := if r.background_music then 25 else 0
  let priority_multiplier := priority_multipliers r.priority
  let total_cost := pyInt
    (((base_cost : ℚ) * duration_multiplier * resolution_multiplier *
        style_multiplier + (voice_over_cost : ℚ) +
        (background_music_cost : ℚ)) * priority_multiplier)
  let estimated_time := pyInt
    ((5 : ℚ) * duration_multiplier * style_multiplier / priority_multiplier)
  { base_cost := base_cost
    duration_multiplier := duration_multiplier
    resolution_multiplier := resolution_multiplier
    style_multiplier := style_multiplier
    voice_over_cost := voice_over_cost
    background_music_cost := background_music_cost
    priority_multiplier := priority_multiplier
    total_cost := total_cost
    estimated_time_minutes := estimated_time }

/-- pyInt agrees on embedded integers. -/
theorem pyInt_intCast (z : Int) : pyInt ((z : ℚ)) = z := by
  unfold pyInt
  by_cases h : (0 : ℚ) ≤ (z : ℚ)
  · simp [h, Int.floor_intCast]
  · simp [h, Int.ceil_intCast]

/-- The VideoJob record returned by the generate endpoint
(media_video.py). -/
structure VideoJob where
  id : String
  user_id : String
  title : String
  status : String
  progress : Nat
  credits_cost : Int
  created_at : Nat
deriving DecidableEq, Repr

/-- generate_video (media_video.py, lines 133-170): obtain the cost
estimate for the request and create the QUEUED job record charged with the
estimate's total; jobId and now stand for the non-deterministic uuid4()
and utcnow() inputs, which the charged cost must not depend on. -/
def generate_video (r : VideoGenerationRequest) (user_id jobId : String)
    (now : Nat) : VideoJob :=
  let cost_estimate := estimate_video_cost r
  { id := jobId
    user_id := user_id
    title := r.title
    status := "QUEUED"
    progress := 0
    credits_cost := cost_estimate.total_cost
    created_at := now }

/-- The default video generation request of the pydantic model: style
cinematic, 30 s, 16:9, 1080p, replicate, stable-video-diffusion, no
voice-over, background music on, normal priority. -/
def defaultVideoRequest : VideoGenerationRequest :=
  { title := "t", script := "a script of ten chars", style := "cinematic",
    duration := 30, aspect_ratio := "16:9", resolution := "1080p",
    provider := "replicate", model := "stable-video-diffusion",
    voice_over := false, background_music := true, priority := "normal" }

/-- Claim C7: the cost estimate is a pure deterministic function of the
request parameters - the job record built at submission time is charged
exactly the estimate's total for the same parameters, and the charged
cost is independent of the freshly drawn job id and timestamp; on the
default parameters the estimate is 295 credits
(int((100 * 1 * 1.5 * 1.8 + 25) * 1)). -/
theorem video_cost_quote_equals_charge :
    (∀ (r : VideoGenerationRequest) (u jobId : String) (now : Nat),
      (generate_video r u jobId now).credits_cost =
        (estimate_video_cost r).total_cost) ∧
    (∀ (r : VideoGenerationRequest) (u jobId1 jobId2 : String)
        (now1 now2 : Nat),
      (generate_video r u jobId1 now1).credits_cost =
        (generate_video r u jobId2 now2).credits_cost) ∧
    (estimate_video_cost defaultVideoRequest).total_cost = 295 := by
  refine ⟨fun r u jobId now => rfl, fun r u j1 j2 n1 n2 => rfl, ?_⟩
  show pyInt (((100 : ℚ) * max 1.0 ((30 : ℚ) / 30) *
      resolution_multipliers "1080p" * style_multipliers "cinematic" +
      ((0 : Int) : ℚ) + ((25 : Int) : ℚ)) * priority_multipliers "normal") = 295
  have hres : resolution_multipliers "1080p" = 1.5 := by
    unfold resolution_multipliers
    rw [if_neg (by decide), if_pos rfl]
  have hsty : style_multipliers "cinematic" = 1.8 := by
    unfold style_multipliers
    rw [if_neg (by decide), if_neg (by decide), if_pos rfl]
  have hpri : priority_multipliers "normal" = 1.0 := by
    unfold priority_multipliers
    rw [if_neg (by decide), if_pos rfl]
  rw [hres, hsty, hpri,
    show (((100 : ℚ) * max 1.0 ((30 : ℚ) / 30) * 1.5 * 1.8 +
      ((0 : Int) : ℚ) + ((25 : Int) : ℚ)) * 1.0) = ((295 : Int) : ℚ) from by
      norm_num [max_def]]
  exact pyInt_intCast 295

/-- The newest-first ordering requested by JobsService.list through the
order=created_at.desc query parameter. -/
def sbDesc (a b : SbJob) : Prop := b.created_at ≤ a.created_at

instance : DecidableRel sbDesc := fun a b => Nat.decLe b.created_at a.created_at

instance : IsTotal SbJob sbDesc := ⟨fun a b => le_total b.created_at a.created_at⟩

instance : IsTrans SbJob sbDesc := ⟨fun _ _ _ h1 h2 => le_trans h2 h1⟩

/-- The row filter expressed by the user_id.eq and optional status.eq
query parameters built by JobsService.list. -/
def statusMatch (status : Option String) (r : SbJob) : Bool :=
  match status with
  | some s => r.status == s
  | none => true

/-- JobsService.list (aeon/services/jobs.py, lines 37-41), together with
the documented evaluation of the query parameters it builds for the
supabase REST interface (SupabaseClient.select): keep the rows of the
requesting user (and of the requested status when one is given), order
them newest-first by created_at, then apply offset and limit. -/
def JobsService.list (tbl : List SbJob) (user_id : String) (lim off : Nat)
    (status : Option String) : List SbJob :=
  ((((tbl.filter (fun r => r.user_id == user_id && statusMatch status r)).insertionSort
      sbDesc).drop off).take lim)

/-- Claim C8: listing jobs returns only rows owned by the requesting user,
restricted to the requested status when one is given, ordered newest-first
by creation time, with at most limit rows, and equal to the
offset/limit window of the sorted filtered table. -/
theorem jobs_list_spec (tbl : List SbJob) (uid : String) (lim off : Nat)
    (status : Option String) (s : String) :
    ((JobsService.list tbl uid lim off status).all
      (fun r => r.user_id == uid)) = true ∧
    ((JobsService.list tbl uid lim off (some s)).all
      (fun r => r.status == s)) = true ∧
    List.Sorted sbDesc (JobsService.list tbl uid lim off status) ∧
    (JobsService.list tbl uid lim off status).length ≤ lim ∧
    JobsService.list tbl uid lim off status =
      (((tbl.filter (fun r => r.user_id == uid && statusMatch status r)).insertionSort
        sbDesc).drop off).take lim := by
  have hsub : ∀ (st : Option String),
      List.Sublist (JobsService.list tbl uid lim off st)
        ((tbl.filter (fun r => r.user_id == uid && statusMatch st r)).insertionSort
          sbDesc) := by
    intro st
    exact List.Sublist.trans (List.take_sublist _ _) (List.drop_sublist _ _)
  have hmem : ∀ (st : Option String) (r : SbJob),
      r ∈ JobsService.list tbl uid lim off st →
        (r.user_id == uid && statusMatch st r) = true := by
    intro st r hr
    have h2 : r ∈ (tbl.filter
        (fun a => a.user_id == uid && statusMatch st a)).insertionSort sbDesc :=
      (hsub st).mem hr
    have h3 : r ∈ tbl.filter (fun a => a.user_id == uid && statusMatch st a) :=
      (List.mem_insertionSort sbDesc).mp h2
    exact (List.mem_filter.mp h3).2
  refine ⟨?_, ?_, ?_, ?_, rfl⟩
  · rw [List.all_eq_true]
    intro r hr
    exact (Bool.and_eq_true_iff.mp (hmem status r hr)).1
  · rw [List.all_eq_true]
    intro r hr
    exact (Bool.and_eq_true_iff.mp (hmem (some s) r hr)).2
  · exact List.Pairwise.sublist (hsub status)
      (List.sorted_insertionSort sbDesc _)
  · exact List.length_take_le lim _

end Aeon
